import Mathlib

/-!
Shallow embedding of the gltut-rust utility library and application shell.

The code modelled here lives in:
  * src/glutil.rs        — `GlShader::compile`, `GlProgram::link`, error types,
                            `get_shader_type`, the `Drop` impls;
  * src/glutil/types.rs  — `GlBufUsage`;
  * src/app.rs           — `GlApp::window_event`, `set_gl_viewport`, `do_nothing`,
                            `GlAppDelegate` defaults, `GlAppBuilder`;
  * src/runtime.rs       — the analogous `init_vertex_buffer` helper.

OpenGL itself is an external collaborator: its driver-side answers (fresh object
ids, compile/link status, info logs) are parameters gathered in `GlDriver`, and
every call the Rust code makes into the driver is recorded as a `GlCmd` in an
emitted trace, so that resource-release and call-order properties can be stated
over the trace.
-/

namespace Gltut

/-! ### OpenGL enum constants (values from the GL 4.1 registry bindings) -/

def GL_VERTEX_SHADER : Nat := 0x8B31
def GL_FRAGMENT_SHADER : Nat := 0x8B30
def GL_GEOMETRY_SHADER : Nat := 0x8DD9
def GL_ARRAY_BUFFER : Nat := 0x8892
def GL_STATIC_DRAW : Nat := 0x88E4
def GL_STREAM_DRAW : Nat := 0x88E0
def GL_COMPILE_STATUS : Nat := 0x8B81
def GL_LINK_STATUS : Nat := 0x8B82
def GL_INFO_LOG_LENGTH : Nat := 0x8B84

/-- src/glutil.rs `GlShaderType`: type-safe wrapper over `GLenum`,
only `VERTEX` and `FRAGMENT` exist. -/
inductive GlShaderType
  | VERTEX
  | FRAGMENT
  deriving DecidableEq

/-- src/glutil.rs `GlShaderType::value`. -/
def GlShaderType.value : GlShaderType → Nat
  | .VERTEX => GL_VERTEX_SHADER
  | .FRAGMENT => GL_FRAGMENT_SHADER

/-- src/glutil.rs `get_shader_type`: maps the raw `GLenum` back to a label. -/
def get_shader_type (shader_type : Nat) : String :=
  if shader_type = GL_VERTEX_SHADER then "vertex"
  else if shader_type = GL_GEOMETRY_SHADER then "geometry"
  else if shader_type = GL_FRAGMENT_SHADER then "fragment"
  else "unknown"

/-- src/glutil/types.rs `GlBufUsage`. -/
inductive GlBufUsage
  | StaticDraw
  | StreamDraw
  deriving DecidableEq

/-- src/glutil/types.rs `GlBufUsage::value`. -/
def GlBufUsage.value : GlBufUsage → Nat
  | .StaticDraw => GL_STATIC_DRAW
  | .StreamDraw => GL_STREAM_DRAW

/-! ### GL call trace

Every call the Rust code makes into the GL driver is recorded as one `GlCmd`.
Shader sources, info-log contents and vertex data are byte/word lists. -/

inductive GlCmd
  | createShader (ty : Nat)
  | shaderSource (id : Nat) (src : List Nat)
  | compileShader (id : Nat)
  | getShaderiv (id pname : Nat)
  | getShaderInfoLog (id : Nat)
  | deleteShader (id : Nat)
  | createProgram
  | attachShader (program shader : Nat)
  | linkProgram (id : Nat)
  | getProgramiv (id pname : Nat)
  | getProgramInfoLog (id : Nat)
  | deleteProgram (id : Nat)
  | genBuffer (id : Nat)
  | bindBuffer (target id : Nat)
  | bufferData (target : Nat) (size : Nat) (data : List Nat) (usage : Nat)
  | viewport (x y w h : Int)
  | flush
  deriving DecidableEq

/-- Driver-side answers for one compile/link interaction; these come from the
external GL implementation, so they are parameters of the model.
`rawShaderLog` / `rawProgramLog` are the exact byte buffers that
`glGetShaderInfoLog` / `glGetProgramInfoLog` would fill in (nul terminator
included when the driver produces a log). -/
structure GlDriver where
  newShaderId : Nat
  compileOk : Bool
  rawShaderLog : List Nat
  newProgramId : Nat
  linkOk : Bool
  rawProgramLog : List Nat
  deriving DecidableEq

/-- src/glutil.rs `GlShader`: RAII wrapper owning one shader object id. -/
structure GlShader where
  id : Nat
  deriving DecidableEq

/-- src/glutil.rs `impl Drop for GlShader`: dropping calls `glDeleteShader` once. -/
def GlShader.drop (s : GlShader) : List GlCmd := [.deleteShader s.id]

/-- src/glutil.rs `GlProgram`: RAII wrapper owning one program object id. -/
structure GlProgram where
  id : Nat
  deriving DecidableEq

/-- src/glutil.rs `impl Drop for GlProgram`: dropping calls `glDeleteProgram` once. -/
def GlProgram.drop (p : GlProgram) : List GlCmd := [.deleteProgram p.id]

/-- Rust `CString::from_vec_with_nul`: succeeds exactly when the buffer has a
single nul byte, placed at the end; returns the content without the nul. -/
def from_vec_with_nul (bytes : List Nat) : Option (List Nat) :=
  if bytes.getLast? = some 0 ∧ 0 ∉ bytes.dropLast then some bytes.dropLast else none

/-- src/glutil.rs `GlShaderError`: `CStrError` is the `From<ffi::NulError>` arm,
`CompileError` wraps `GlShaderCompileError { shader_type, msg }`. -/
inductive GlShaderError
  | CStrError
  | CompileError (shader_type : Nat) (msg : List Nat)
  deriving DecidableEq

/-- src/glutil.rs `GlProgramLinkError { msg }`. -/
structure GlProgramLinkError where
  msg : List Nat
  deriving DecidableEq

/-- The rendered `Display` output of `GlShaderCompileError`
(`"compiler error in {} shader: {}"`); the lossy UTF-8 decoding of the
message bytes is kept abstract as a `String` argument. -/
def GlShaderCompileError.diagnostic (shader_type : Nat) (msgLossy : String) : String :=
  "compiler error in " ++ get_shader_type shader_type ++ " shader: " ++ msgLossy

/-- Result of running a Rust function that can return `Ok`, return `Err`,
or abort via a failed `unwrap`. -/
inductive Outcome (ε α : Type)
  | ok (a : α)
  | err (e : ε)
  | panicked
  deriving DecidableEq

/-- src/glutil.rs `GlShader::get_shader_info_log`: queries `INFO_LOG_LENGTH`,
fills a buffer via `glGetShaderInfoLog`, and converts it with
`CString::from_vec_with_nul` (whose failure the caller `unwrap`s). -/
def GlShader.get_shader_info_log (drv : GlDriver) (s : GlShader) :
    Option (List Nat) × List GlCmd :=
  (from_vec_with_nul drv.rawShaderLog,
   [.getShaderiv s.id GL_INFO_LOG_LENGTH, .getShaderInfoLog s.id])

/-- src/glutil.rs `GlShader::compile`.
Order of operations as in the source: `glCreateShader` first, the id is wrapped
into a `GlShader` immediately (so any later early return drops it), then
`CString::new(source)` (fails on any embedded nul byte, propagated by `?` as
`CStrError`), then `glShaderSource`, `glCompileShader`, and the
`COMPILE_STATUS` check; on compile failure the info log is fetched and
`CompileError` returned, dropping the wrapper.  The second component is the
trace of GL calls made, including those of `Drop` when the wrapper dies. -/
def GlShader.compile (drv : GlDriver) (shader_type : GlShaderType) (source : List Nat) :
    Outcome GlShaderError GlShader × List GlCmd :=
  let shader := drv.newShaderId
  let result : GlShader := ⟨shader⟩
  let t0 := [GlCmd.createShader shader_type.value]
  if 0 ∈ source then
    (.err .CStrError, t0 ++ result.drop)
  else
    let t1 := t0 ++ [.shaderSource shader source, .compileShader shader,
                     .getShaderiv shader GL_COMPILE_STATUS]
    if drv.compileOk then
      (.ok result, t1)
    else
      let log := result.get_shader_info_log drv
      match log.1 with
      | some msg => (.err (.CompileError shader_type.value msg), t1 ++ log.2 ++ result.drop)
      | none => (.panicked, t1 ++ log.2 ++ result.drop)

/-- src/glutil.rs `GlProgram::link`.
`glCreateProgram`, wrap immediately, attach every shader of the borrowed slice,
`glLinkProgram`, check `LINK_STATUS`; on failure fetch the program info log and
return `GlProgramLinkError`, dropping the wrapper.  The shader arguments are
only read (`shaders.iter().map(GlShader::handle)`); they are never deleted. -/
def GlProgram.link (drv : GlDriver) (shaders : List GlShader) :
    Outcome GlProgramLinkError GlProgram × List GlCmd :=
  let program := drv.newProgramId
  let result : GlProgram := ⟨program⟩
  let t1 := GlCmd.createProgram ::
      (shaders.map fun s => GlCmd.attachShader program s.id) ++
      [.linkProgram program, .getProgramiv program GL_LINK_STATUS]
  if drv.linkOk then
    (.ok result, t1)
  else
    let tlog := [GlCmd.getProgramiv program GL_INFO_LOG_LENGTH, .getProgramInfoLog program]
    match from_vec_with_nul drv.rawProgramLog with
    | some msg => (.err ⟨msg⟩, t1 ++ tlog ++ result.drop)
    | none => (.panicked, t1 ++ tlog ++ result.drop)

/-! ### Application shell (src/app.rs)

`GlApp::window_event` is modelled as a function from the incoming
`WindowEvent` to a `StepResult`: the list of shell-level actions it performs in
order, whether it aborted the process (a `panic` message from the `expect` on
`swap_buffers`), and whether it asked the owning event loop to exit.  Calls
into the user delegate are the atomic actions `callDisplay` / `callReshape`;
the delegate body itself is external to the handler. -/

/-- winit `PhysicalSize<u32>`; fields are the `u32` values. -/
structure PhysicalSize where
  width : Nat
  height : Nat
  deriving DecidableEq

/-- The window events `GlApp::window_event` distinguishes; `other` stands for
every event kind its catch-all `_ => ()` arm ignores. -/
inductive WinEvent
  | closeRequested
  | redrawRequested
  | resized (size : PhysicalSize)
  | other
  deriving DecidableEq

/-- Shell-level actions of `GlApp::window_event`, in execution order.
`requestRedraw` (winit `Window::request_redraw`) is listed so that its absence
from the handler's traces can be stated; the handler never emits it. -/
inductive AppAction
  | callDisplay
  | glFlush
  | prePresentNotify
  | swapAttempt
  | swapComplete
  | resizeSurface
  | callReshape (size : PhysicalSize)
  | requestRedraw
  deriving DecidableEq

/-- Rust `u32 as i32` (the `as GLsizei` cast in `set_gl_viewport`):
wrap into the signed 32-bit range. -/
def u32_as_i32 (n : Nat) : Int :=
  if n % 2 ^ 32 < 2 ^ 31 then ((n % 2 ^ 32 : Nat) : Int)
  else ((n % 2 ^ 32 : Nat) : Int) - 2 ^ 32

/-- src/app.rs `set_gl_viewport`: `gl::Viewport(0, 0, width as GLsizei, height as GLsizei)`. -/
def set_gl_viewport (size : PhysicalSize) : List GlCmd :=
  [.viewport 0 0 (u32_as_i32 size.width) (u32_as_i32 size.height)]

/-- src/app.rs `do_nothing`: the default display callback body. -/
def do_nothing : List GlCmd := []

/-- Outcome of handling one window event. -/
structure StepResult where
  acts : List AppAction
  panicMsg : Option String
  exitRequested : Bool
  deriving DecidableEq

/-- src/app.rs `GlApp::window_event`, parametrised by whether the external
`swap_buffers` call succeeds:
  * `CloseRequested` → `event_loop.exit()`;
  * `RedrawRequested` → delegate `display`, `gl::Flush`, `pre_present_notify`,
    then `swap_buffers(..).expect("failed to swap GLSurface buffers")` — on a
    swap error the `expect` aborts the process with that diagnostic;
  * `Resized(size)` → `resize_surface`, then delegate `reshape` with `size`;
  * everything else is ignored. -/
def GlApp.window_event (swapOk : Bool) : WinEvent → StepResult
  | .closeRequested => ⟨[], none, true⟩
  | .redrawRequested =>
      if swapOk then
        ⟨[.callDisplay, .glFlush, .prePresentNotify, .swapAttempt, .swapComplete], none, false⟩
      else
        ⟨[.callDisplay, .glFlush, .prePresentNotify, .swapAttempt],
         some "failed to swap GLSurface buffers", false⟩
  | .resized size => ⟨[.resizeSurface, .callReshape size], none, false⟩
  | .other => ⟨[], none, false⟩

/-- The externally owned winit dispatch loop driving `GlApp`: events are handled
in order; once the handler signals exit (or the process aborts) no further
event is dispatched.  Returns the concatenated action trace. -/
def run_loop (swapOk : Bool) : List WinEvent → List AppAction
  | [] => []
  | e :: rest =>
      let r := GlApp.window_event swapOk e
      if r.exitRequested || r.panicMsg.isSome then r.acts
      else r.acts ++ run_loop swapOk rest

/-! ### Delegate implementations (src/app.rs)

For the refinement claim the delegate bodies matter, so a delegate is a pair of
effect functions producing the GL calls its callbacks make. -/

/-- A `GlAppDelegate` implementation: the GL calls its `display` and `reshape`
bodies perform.  `display` takes `Unit` mirroring the zero-data default. -/
structure GlAppDelegateImpl where
  display : Unit → List GlCmd
  reshape : PhysicalSize → List GlCmd

/-- The `GlAppDelegate` trait's provided method bodies: `display` does nothing,
`reshape` calls `set_gl_viewport(size)`. -/
def GlAppDelegate.defaultImpl : GlAppDelegateImpl :=
  { display := fun _ => []
    reshape := fun size => set_gl_viewport size }

/-- src/app.rs `GlAppBuilder`: holds the two plain callbacks. -/
structure GlAppBuilder where
  display_fn : Unit → List GlCmd
  reshape_fn : PhysicalSize → List GlCmd

/-- src/app.rs `GlAppBuilder::new()`: `display_fn = do_nothing`,
`reshape_fn = set_gl_viewport`. -/
def GlAppBuilder.new : GlAppBuilder :=
  { display_fn := fun _ => do_nothing
    reshape_fn := fun size => set_gl_viewport size }

/-- src/app.rs `impl GlAppDelegate for GlAppBuilder`: `display` invokes
`display_fn`, `reshape` invokes `reshape_fn` on the size. -/
def GlAppBuilder.asDelegate (b : GlAppBuilder) : GlAppDelegateImpl :=
  { display := fun _ => b.display_fn ()
    reshape := fun size => b.reshape_fn size }

/-- Interpret one shell action against a concrete delegate, yielding the GL
calls it performs. -/
def interpAction (d : GlAppDelegateImpl) : AppAction → List GlCmd
  | .callDisplay => d.display ()
  | .glFlush => [.flush]
  | .callReshape size => d.reshape size
  | _ => []

/-- Full GL-call behaviour of a `GlApp` with delegate `d` over an event
sequence. -/
def appGlTrace (d : GlAppDelegateImpl) (swapOk : Bool) (events : List WinEvent) : List GlCmd :=
  (run_loop swapOk events).flatMap (interpAction d)

/-! ### Vertex buffer uploader -/

/-- Modelled from the spec: the `glutil::init_vertex_buffer(vtx_data, usage)`
helper invoked by examples 02 and 03 is not present under src/ (only its
callers and its `GlBufUsage` argument type are).  Following the spec's §4.3
contract — allocate a buffer, upload the bytes with the selected usage hint,
return its identifier, no failure path — and the analogous usage-less
`init_vertex_buffer` in src/runtime.rs: `glGenBuffers` one id, bind it to
`GL_ARRAY_BUFFER`, `glBufferData` with `size_of_val(vtx_data)` bytes
(4 bytes per `f32`) and the usage hint, rebind the target to the default 0,
and return the id.  Vertex values are represented by their 32-bit patterns;
`newBufId` is the fresh id the driver hands out. -/
def init_vertex_buffer (newBufId : Nat) (vtx_data : List Nat) (usage : GlBufUsage) :
    Nat × List GlCmd :=
  (newBufId,
   [.genBuffer newBufId,
    .bindBuffer GL_ARRAY_BUFFER newBufId,
    .bufferData GL_ARRAY_BUFFER (4 * vtx_data.length) vtx_data usage.value,
    .bindBuffer GL_ARRAY_BUFFER 0])

/-! ### Helper predicates over traces and outcomes -/

/-- Whether a GL trace contains any `glCompileShader` call. -/
def hasCompileShaderCmd (t : List GlCmd) : Bool :=
  t.any fun c => match c with | .compileShader _ => true | _ => false

/-- Whether a GL trace contains any `glDeleteShader` call. -/
def hasDeleteShaderCmd (t : List GlCmd) : Bool :=
  t.any fun c => match c with | .deleteShader _ => true | _ => false

/-- Whether a GL trace contains any `glDeleteProgram` call. -/
def hasDeleteProgramCmd (t : List GlCmd) : Bool :=
  t.any fun c => match c with | .deleteProgram _ => true | _ => false

/-- Whether a compile outcome is the `CompileError` variant. -/
def isCompileErrorResult (o : Outcome GlShaderError GlShader) : Bool :=
  match o with | .err (.CompileError _ _) => true | _ => false

/-- How many buffers a GL trace allocates via `glGenBuffers`. -/
def genBufferCount (t : List GlCmd) : Nat :=
  (t.filter fun c => match c with | .genBuffer _ => true | _ => false).length

/-! ## Inversion lemmas for `GlShader.compile` and `GlProgram.link` -/

/-- Inverting a successful compile: the driver reported success, the source had
no nul byte, and the trace is exactly create/source/compile/status-check. -/
lemma compile_ok_inv (drv : GlDriver) (ty : GlShaderType) (source : List Nat)
    (s : GlShader) (t : List GlCmd)
    (h : GlShader.compile drv ty source = (.ok s, t)) :
    drv.compileOk = true ∧ 0 ∉ source ∧ s = ⟨drv.newShaderId⟩ ∧
    t = [.createShader ty.value, .shaderSource drv.newShaderId source,
         .compileShader drv.newShaderId, .getShaderiv drv.newShaderId GL_COMPILE_STATUS] := by
  by_cases hmem : 0 ∈ source
  · simp [GlShader.compile, hmem] at h
  · cases hok : drv.compileOk with
    | true =>
        simp [GlShader.compile, hmem, hok] at h
        exact ⟨rfl, hmem, h.1.symm, h.2.symm⟩
    | false =>
        simp [GlShader.compile, hmem, hok] at h
        split at h <;> simp at h

/-- Inverting a failed compile: the partially constructed `GlShader` was
dropped, so the trace deletes the freshly created shader object exactly once. -/
lemma compile_err_inv (drv : GlDriver) (ty : GlShaderType) (source : List Nat)
    (e : GlShaderError) (t : List GlCmd)
    (h : GlShader.compile drv ty source = (.err e, t)) :
    t.count (.deleteShader drv.newShaderId) = 1 := by
  by_cases hmem : 0 ∈ source
  · simp [GlShader.compile, hmem] at h
    rw [← h.2]
    simp [GlShader.drop, List.count_cons]
  · cases hok : drv.compileOk with
    | true =>
        simp [GlShader.compile, hmem, hok] at h
    | false =>
        simp [GlShader.compile, GlShader.get_shader_info_log, hmem, hok] at h
        split at h <;> simp at h
        rw [← h.2]
        simp [GlShader.drop, List.count_append, List.count_cons]

/-- `GlProgram::link` never deletes a shader, on any path: the borrowed
shaders stay owned by the caller. -/
lemma link_no_delete_shader (drv : GlDriver) (shaders : List GlShader) :
    hasDeleteShaderCmd (GlProgram.link drv shaders).2 = false := by
  unfold GlProgram.link
  cases hl : drv.linkOk with
  | true => simp [hl, hasDeleteShaderCmd, List.any_append]
  | false =>
      cases hlog : from_vec_with_nul drv.rawProgramLog with
      | some m => simp [hl, hlog, hasDeleteShaderCmd, GlProgram.drop, List.any_append]
      | none => simp [hl, hlog, hasDeleteShaderCmd, GlProgram.drop, List.any_append]

/-- Inverting a successful link: the trace deletes no program object. -/
lemma link_ok_inv (drv : GlDriver) (shaders : List GlShader)
    (p : GlProgram) (t : List GlCmd)
    (h : GlProgram.link drv shaders = (.ok p, t)) :
    drv.linkOk = true ∧ p = ⟨drv.newProgramId⟩ ∧ hasDeleteProgramCmd t = false := by
  cases hl : drv.linkOk with
  | true =>
      simp [GlProgram.link, hl] at h
      refine ⟨rfl, h.1.symm, ?_⟩
      rw [← h.2]
      simp [hasDeleteProgramCmd, List.any_append]
  | false =>
      simp [GlProgram.link, hl] at h
      split at h <;> simp at h

/-- Inverting a failed link: the partially constructed `GlProgram` was dropped,
so the trace deletes the freshly created program object exactly once. -/
lemma link_err_inv (drv : GlDriver) (shaders : List GlShader)
    (e : GlProgramLinkError) (t : List GlCmd)
    (h : GlProgram.link drv shaders = (.err e, t)) :
    t.count (.deleteProgram drv.newProgramId) = 1 := by
  have hmap : ∀ (program : Nat) (l : List GlShader),
      (l.map fun s => GlCmd.attachShader program s.id).count
        (GlCmd.deleteProgram drv.newProgramId) = 0 := by
    intro program l
    induction l with
    | nil => rfl
    | cons a l ih => simpa [List.count_cons] using ih
  cases hl : drv.linkOk with
  | true =>
      simp [GlProgram.link, hl] at h
  | false =>
      simp [GlProgram.link, hl] at h
      split at h <;> simp at h
      rw [← h.2]
      simp [GlProgram.drop, List.count_append, List.count_cons, hmap]

/-! ## Theorems -/

/-- C1: for a delivered redraw-requested window event the shell invokes the
delegate's display callback exactly once, then flushes the pipeline, then
notifies the platform layer of imminent presentation, then performs exactly one
buffer swap, in that order; the redraw handler itself never emits a
request-redraw. -/
theorem redraw_display_once_flush_notify_swap_in_order :
    (GlApp.window_event true .redrawRequested).acts =
      [.callDisplay, .glFlush, .prePresentNotify, .swapAttempt, .swapComplete] ∧
    ∀ swapOk : Bool,
      (GlApp.window_event swapOk .redrawRequested).acts.count .callDisplay = 1 ∧
      (GlApp.window_event swapOk .redrawRequested).acts.count .swapAttempt = 1 ∧
      AppAction.requestRedraw ∉ (GlApp.window_event swapOk .redrawRequested).acts ∧
      (GlApp.window_event swapOk .redrawRequested).exitRequested = false := by
  refine ⟨rfl, ?_⟩
  intro swapOk
  cases swapOk <;> refine ⟨by decide, by decide, by decide, rfl⟩

/-- C6: on a close-requested event the shell signals the event loop to exit
and performs no action at all (in particular neither display nor reshape);
once the close event has been handled, events dispatched later contribute
nothing to the loop's action trace. -/
theorem close_requested_exits_without_callbacks :
    (∀ swapOk : Bool,
      GlApp.window_event swapOk .closeRequested = ⟨[], none, true⟩ ∧
      AppAction.callDisplay ∉ (GlApp.window_event swapOk .closeRequested).acts ∧
      ∀ size, AppAction.callReshape size ∉ (GlApp.window_event swapOk .closeRequested).acts) ∧
    ∀ (swapOk : Bool) (pre post : List WinEvent),
      run_loop swapOk (pre ++ WinEvent.closeRequested :: post) =
        run_loop swapOk (pre ++ [WinEvent.closeRequested]) := by
  constructor
  · intro swapOk
    cases swapOk <;> exact ⟨rfl, by decide, fun size => by simp [GlApp.window_event]⟩
  · intro swapOk pre post
    induction pre with
    | nil => rfl
    | cons e pre ih =>
        simp only [List.cons_append, run_loop, List.append_eq]
        rw [ih]

/-- C8: when the buffer swap during redraw handling fails, the process aborts
with the diagnostic "failed to swap GLSurface buffers"; exactly one swap was
attempted (no retry), nothing runs after the failed swap, and the loop
dispatches no further event. -/
theorem swap_failure_aborts_no_retry :
    GlApp.window_event false .redrawRequested =
      ⟨[.callDisplay, .glFlush, .prePresentNotify, .swapAttempt],
       some "failed to swap GLSurface buffers", false⟩ ∧
    (GlApp.window_event false .redrawRequested).acts.count .swapAttempt = 1 ∧
    (GlApp.window_event false .redrawRequested).acts.getLast? = some .swapAttempt ∧
    AppAction.swapComplete ∉ (GlApp.window_event false .redrawRequested).acts ∧
    ∀ rest : List WinEvent,
      run_loop false (.redrawRequested :: rest) =
        [.callDisplay, .glFlush, .prePresentNotify, .swapAttempt] := by
  refine ⟨rfl, by decide, by decide, by decide, ?_⟩
  intro rest
  simp [run_loop, GlApp.window_event]

/-- C7 (counterexample): the claim "the default reshape behavior sets the
viewport to origin (0,0) with exactly the new physical pixel width and height"
fails at the physical size 2^31 × 600: the `as GLsizei` cast wraps the width
to -2^31. -/
theorem resize_default_viewport_exact_counterexample :
    set_gl_viewport ⟨2 ^ 31, 600⟩ ≠
      [.viewport 0 0 ((2 ^ 31 : Nat) : Int) ((600 : Nat) : Int)] := by decide

/-- C7 (amended): on every resize event with physical size `s` — whatever the
size — the shell first resizes the presentation surface, then invokes the
reshape callback exactly once with `s`, and never invokes display; and the
default reshape sets the viewport to origin (0,0) with exactly the new width
and height whenever each fits in a signed 32-bit integer (the `as GLsizei`
cast wraps values ≥ 2^31).  The bound constrains only the viewport part, whose
size `sv` is quantified separately from the event's size `s`. -/
theorem resize_surface_then_reshape_once_default_viewport
    (swapOk : Bool) (s sv : PhysicalSize)
    (hw : sv.width < 2 ^ 31) (hh : sv.height < 2 ^ 31) :
    (GlApp.window_event swapOk (.resized s)).acts = [.resizeSurface, .callReshape s] ∧
    (GlApp.window_event swapOk (.resized s)).acts.count (.callReshape s) = 1 ∧
    AppAction.callDisplay ∉ (GlApp.window_event swapOk (.resized s)).acts ∧
    GlAppDelegate.defaultImpl.reshape sv =
      [.viewport 0 0 (sv.width : Int) (sv.height : Int)] := by
  have hw' : u32_as_i32 sv.width = (sv.width : Int) := by
    unfold u32_as_i32
    rw [Nat.mod_eq_of_lt (by omega), if_pos hw]
  have hh' : u32_as_i32 sv.height = (sv.height : Int) := by
    unfold u32_as_i32
    rw [Nat.mod_eq_of_lt (by omega), if_pos hh]
  refine ⟨rfl, ?_, ?_, ?_⟩
  · simp [GlApp.window_event, List.count_cons]
  · simp [GlApp.window_event]
  · simp [GlAppDelegate.defaultImpl, set_gl_viewport, hw', hh']

/-- C7 (witness): the amended theorem with the event delivered at the
out-of-range size 2^31 × 600 (the event-handling conjuncts hold regardless)
and the viewport evaluated at the concrete size 1000 × 680. -/
theorem resize_surface_then_reshape_once_default_viewport_witness :
    (GlApp.window_event true (.resized ⟨2 ^ 31, 600⟩)).acts =
      [.resizeSurface, .callReshape ⟨2 ^ 31, 600⟩] ∧
    (GlApp.window_event true (.resized ⟨2 ^ 31, 600⟩)).acts.count
      (.callReshape ⟨2 ^ 31, 600⟩) = 1 ∧
    AppAction.callDisplay ∉ (GlApp.window_event true (.resized ⟨2 ^ 31, 600⟩)).acts ∧
    GlAppDelegate.defaultImpl.reshape ⟨1000, 680⟩ =
      [.viewport 0 0 ((1000 : Nat) : Int) ((680 : Nat) : Int)] :=
  resize_surface_then_reshape_once_default_viewport true ⟨2 ^ 31, 600⟩ ⟨1000, 680⟩
    (by norm_num) (by norm_num)

/-- C10: a `GlApp` built from `GlAppBuilder::new()` with no customization
behaves identically to one whose delegate uses the `GlAppDelegate` default
method bodies: the builder's default display performs nothing, its default
reshape issues the same viewport call, and the full GL trace over any event
sequence coincides. -/
theorem builder_default_equals_delegate_default :
    GlAppBuilder.new.asDelegate.display () = GlAppDelegate.defaultImpl.display () ∧
    (∀ s : PhysicalSize,
      GlAppBuilder.new.asDelegate.reshape s = GlAppDelegate.defaultImpl.reshape s) ∧
    GlAppBuilder.new.asDelegate.display () = [] ∧
    ∀ (swapOk : Bool) (events : List WinEvent),
      appGlTrace GlAppBuilder.new.asDelegate swapOk events =
        appGlTrace GlAppDelegate.defaultImpl swapOk events := by
  have hd : GlAppBuilder.new.asDelegate = GlAppDelegate.defaultImpl := rfl
  exact ⟨rfl, fun s => rfl, rfl, fun swapOk events => by rw [hd]⟩

/-- C2: for every shader kind and every source containing an embedded nul
byte, `GlShader::compile` returns the `CStrError` variant, never
`CompileError`, and the trace contains no `glCompileShader` call: the
underlying compile step is not reached. -/
theorem compile_nul_source_is_cstr_error
    (drv : GlDriver) (shader_type : GlShaderType) (source : List Nat)
    (h : 0 ∈ source) :
    (GlShader.compile drv shader_type source).1 = .err .CStrError ∧
    isCompileErrorResult (GlShader.compile drv shader_type source).1 = false ∧
    hasCompileShaderCmd (GlShader.compile drv shader_type source).2 = false := by
  simp only [GlShader.compile, if_pos h]
  refine ⟨?_, ?_, ?_⟩ <;> trivial

/-- C2 (witness): the theorem at kind VERTEX and source bytes "A\x00B". -/
theorem compile_nul_source_is_cstr_error_witness :
    (GlShader.compile ⟨3, true, [], 0, true, []⟩ .VERTEX [65, 0, 66]).1 =
      .err .CStrError ∧
    isCompileErrorResult
      (GlShader.compile ⟨3, true, [], 0, true, []⟩ .VERTEX [65, 0, 66]).1 = false ∧
    hasCompileShaderCmd
      (GlShader.compile ⟨3, true, [], 0, true, []⟩ .VERTEX [65, 0, 66]).2 = false :=
  compile_nul_source_is_cstr_error ⟨3, true, [], 0, true, []⟩ .VERTEX [65, 0, 66]
    (by decide)

/-- C3: a `GlShader` arises only from a compile that succeeded (`compile`
returns `.ok` only when the source converted and the driver reported compile
success — `GlShader`'s field is private in the source, so `compile` is its
only public constructor, and `GlProgram::link` takes `&[GlShader]` by type);
and `link` borrows the slice: on both its success and failure path its trace
deletes no shader, so the caller still owns every shader passed in. -/
theorem link_only_compiled_shaders_and_borrows
    (drvC : GlDriver) (shader_type : GlShaderType) (source : List Nat)
    (s : GlShader) (t : List GlCmd)
    (drvL : GlDriver) (shaders : List GlShader)
    (h : GlShader.compile drvC shader_type source = (.ok s, t)) :
    drvC.compileOk = true ∧ 0 ∉ source ∧ s = ⟨drvC.newShaderId⟩ ∧
    hasDeleteShaderCmd (GlProgram.link drvL shaders).2 = false := by
  obtain ⟨h1, h2, h3, _⟩ := compile_ok_inv drvC shader_type source s t h
  exact ⟨h1, h2, h3, link_no_delete_shader drvL shaders⟩

/-- C3 (witness): the theorem with a concretely compiled shader linked by a
concrete driver. -/
theorem link_only_compiled_shaders_and_borrows_witness :
    (⟨5, true, [], 7, true, []⟩ : GlDriver).compileOk = true ∧
    0 ∉ ([65] : List Nat) ∧ (⟨5⟩ : GlShader) = ⟨5⟩ ∧
    hasDeleteShaderCmd (GlProgram.link ⟨0, true, [], 7, false, [88, 0]⟩ [⟨5⟩]).2 = false :=
  link_only_compiled_shaders_and_borrows ⟨5, true, [], 7, true, []⟩ .VERTEX [65] ⟨5⟩
    [.createShader GL_VERTEX_SHADER, .shaderSource 5 [65], .compileShader 5,
     .getShaderiv 5 GL_COMPILE_STATUS]
    ⟨0, true, [], 7, false, [88, 0]⟩ [⟨5⟩] (by decide)

/-- C4: on every failure path of `compile` and `link` that occurs after the GL
object was created (the source-encoding failure included), the partially
constructed handle's object is released exactly once; on the success path the
trace releases nothing, and dropping the returned owning handle releases it
exactly once. -/
theorem gl_object_released_exactly_once
    (drvE : GlDriver) (tyE : GlShaderType) (srcE : List Nat)
    (e : GlShaderError) (tE : List GlCmd)
    (drvO : GlDriver) (tyO : GlShaderType) (srcO : List Nat)
    (s : GlShader) (tO : List GlCmd)
    (drvPE : GlDriver) (shadersE : List GlShader)
    (pe : GlProgramLinkError) (tPE : List GlCmd)
    (drvPO : GlDriver) (shadersO : List GlShader)
    (p : GlProgram) (tPO : List GlCmd)
    (hE : GlShader.compile drvE tyE srcE = (.err e, tE))
    (hO : GlShader.compile drvO tyO srcO = (.ok s, tO))
    (hPE : GlProgram.link drvPE shadersE = (.err pe, tPE))
    (hPO : GlProgram.link drvPO shadersO = (.ok p, tPO)) :
    tE.count (.deleteShader drvE.newShaderId) = 1 ∧
    hasDeleteShaderCmd tO = false ∧
    s.drop = [.deleteShader s.id] ∧
    s.drop.count (.deleteShader s.id) = 1 ∧
    tPE.count (.deleteProgram drvPE.newProgramId) = 1 ∧
    hasDeleteProgramCmd tPO = false ∧
    p.drop = [.deleteProgram p.id] ∧
    p.drop.count (.deleteProgram p.id) = 1 := by
  obtain ⟨_, _, _, ht⟩ := compile_ok_inv drvO tyO srcO s tO hO
  refine ⟨compile_err_inv drvE tyE srcE e tE hE, ?_, rfl, by simp [GlShader.drop],
          link_err_inv drvPE shadersE pe tPE hPE,
          (link_ok_inv drvPO shadersO p tPO hPO).2.2, rfl, by simp [GlProgram.drop]⟩
  rw [ht]
  rfl

/-- C4 (witness): the theorem at four concrete scenarios — a nul-source
compile failure, a successful compile, a failed link, and a successful link. -/
theorem gl_object_released_exactly_once_witness :
    ([GlCmd.createShader GL_VERTEX_SHADER, .deleteShader 3].count
        (GlCmd.deleteShader 3) = 1) ∧
    hasDeleteShaderCmd
      [GlCmd.createShader GL_VERTEX_SHADER, .shaderSource 3 [65], .compileShader 3,
       .getShaderiv 3 GL_COMPILE_STATUS] = false ∧
    GlShader.drop ⟨3⟩ = [.deleteShader 3] ∧
    (GlShader.drop ⟨3⟩).count (.deleteShader 3) = 1 ∧
    ((GlProgram.link ⟨0, true, [], 7, false, [88, 0]⟩ []).2.count
        (GlCmd.deleteProgram 7) = 1) ∧
    hasDeleteProgramCmd (GlProgram.link ⟨0, true, [], 9, true, []⟩ [⟨3⟩]).2 = false ∧
    GlProgram.drop ⟨9⟩ = [.deleteProgram 9] ∧
    (GlProgram.drop ⟨9⟩).count (.deleteProgram 9) = 1 :=
  gl_object_released_exactly_once
    ⟨3, true, [], 0, true, []⟩ .VERTEX [0] .CStrError
      [.createShader GL_VERTEX_SHADER, .deleteShader 3]
    ⟨3, true, [], 0, true, []⟩ .VERTEX [65] ⟨3⟩
      [.createShader GL_VERTEX_SHADER, .shaderSource 3 [65], .compileShader 3,
       .getShaderiv 3 GL_COMPILE_STATUS]
    ⟨0, true, [], 7, false, [88, 0]⟩ [] ⟨[88]⟩
      (GlProgram.link ⟨0, true, [], 7, false, [88, 0]⟩ []).2
    ⟨0, true, [], 9, true, []⟩ [⟨3⟩] ⟨9⟩
      (GlProgram.link ⟨0, true, [], 9, true, []⟩ [⟨3⟩]).2
    (by decide) (by decide) (by decide) (by decide)

/-- C5: for every source the compiler rejects (driver reports compile failure,
the source itself having converted), `compile` returns a `CompileError`
carrying the driver's log bytes and the requested kind's `GLenum`; the
reported kind label is "vertex" for VERTEX and "fragment" for FRAGMENT, never
"unknown", and the rendered diagnostic string is non-empty. -/
theorem compile_failure_reports_kind_and_message
    (drv : GlDriver) (shader_type : GlShaderType) (source : List Nat)
    (m : List Nat) (msgLossy : String)
    (hnul : 0 ∉ source) (hfail : drv.compileOk = false)
    (hlog : from_vec_with_nul drv.rawShaderLog = some m) :
    (GlShader.compile drv shader_type source).1 =
      .err (.CompileError shader_type.value m) ∧
    get_shader_type shader_type.value =
      (match shader_type with | .VERTEX => "vertex" | .FRAGMENT => "fragment") ∧
    get_shader_type shader_type.value ≠ "unknown" ∧
    GlShaderCompileError.diagnostic shader_type.value msgLossy ≠ "" := by
  refine ⟨?_, ?_, ?_, ?_⟩
  · simp [GlShader.compile, GlShader.get_shader_info_log, hnul, hfail, hlog]
  · cases shader_type <;> rfl
  · cases shader_type <;> decide
  · intro hempty
    have hlen := congrArg String.length hempty
    simp only [GlShaderCompileError.diagnostic, String.length_append] at hlen
    have h18 : "compiler error in ".length = 18 := rfl
    have h9 : " shader: ".length = 9 := rfl
    have h0 : "".length = 0 := rfl
    omega

/-- C5 (witness): the theorem at kind FRAGMENT, source byte "A", and a driver
whose compile fails with log "Hi\x00". -/
theorem compile_failure_reports_kind_and_message_witness :
    (GlShader.compile ⟨2, false, [72, 105, 0], 0, true, []⟩ .FRAGMENT [65]).1 =
      .err (.CompileError GlShaderType.FRAGMENT.value [72, 105]) ∧
    get_shader_type GlShaderType.FRAGMENT.value = "fragment" ∧
    get_shader_type GlShaderType.FRAGMENT.value ≠ "unknown" ∧
    GlShaderCompileError.diagnostic GlShaderType.FRAGMENT.value "Hi" ≠ "" :=
  compile_failure_reports_kind_and_message ⟨2, false, [72, 105, 0], 0, true, []⟩
    .FRAGMENT [65] [72, 105] "Hi" (by decide) (by decide) (by decide)

/-- C9: for every data sequence and usage hint, the vertex buffer uploader
allocates exactly one new buffer, uploads exactly `size_of_val(data)` bytes
(4 per value) of the given data with the selected usage hint, leaves the
array-buffer target rebound to the default 0, and returns the new buffer's
identifier; its return type carries no error, so it never fails.
(The uploader itself is modelled from the spec, see `init_vertex_buffer`.) -/
theorem init_vertex_buffer_contract :
    ∀ (newBufId : Nat) (vtx_data : List Nat) (usage : GlBufUsage),
      (init_vertex_buffer newBufId vtx_data usage).1 = newBufId ∧
      (init_vertex_buffer newBufId vtx_data usage).2 =
        [.genBuffer newBufId, .bindBuffer GL_ARRAY_BUFFER newBufId,
         .bufferData GL_ARRAY_BUFFER (4 * vtx_data.length) vtx_data usage.value,
         .bindBuffer GL_ARRAY_BUFFER 0] ∧
      genBufferCount (init_vertex_buffer newBufId vtx_data usage).2 = 1 ∧
      (init_vertex_buffer newBufId vtx_data usage).2.getLast? =
        some (.bindBuffer GL_ARRAY_BUFFER 0) := by
  intro newBufId vtx_data usage
  exact ⟨rfl, rfl, rfl, rfl⟩

end Gltut
